import Mathlib

/-!
Shallow embedding of the BlockTracker analytics core and the
RegisteredContent announce protocol of the mext default-block template.

The BlockTracker class keeps a SessionState, guards every mutating method
by an isCompleted flag, emits events outward and optionally persists the
state to a per-block localStorage key.  Methods call Date.now(); here every
API operation takes the current time as an explicit argument.  localStorage
is modelled as an association list from keys to (well-typed) stored session
states: JSON serialisation round-trips a SessionState exactly, so a stored
value either exists (and parses) or does not.
-/

namespace BlockAnalytics

/-- JS defaulting with the logical-or operator on an optional string:
undefined and the empty string are both falsy, so both fall back to the
default value. -/
def jsOrString (s : Option String) (d : String) : String :=
  match s with
  | none => d
  | some v => if v = "" then d else v

/-- JS truthiness of an optional numeric value: undefined and 0 are falsy. -/
def jsTruthyNum (n : Option Nat) : Bool :=
  match n with
  | none => false
  | some v => v != 0

/-- The four question lifecycle tags of QuestionEventType. -/
inductive QuestionEventType where
  | started
  | answered
  | skipped
  | reviewed
deriving Repr, DecidableEq

/-- The three session lifecycle tags of SessionEventType. -/
inductive SessionEventType where
  | started
  | completed
  | abandoned
deriving Repr, DecidableEq

/-- An InteractionEvent record, as built by trackInteraction.  The free-form
data payload is kept opaque as an optional string. -/
structure InteractionEvent where
  interactionType : String
  blockId : String
  sessionId : String
  elementId : Option String
  elementType : Option String
  timestamp : Nat
  duration : Option Int
  data : Option String
deriving Repr, DecidableEq

/-- A QuestionEvent record, as built by startQuestion, answerQuestion and
skipQuestion.  Fields that the source leaves undefined are none. -/
structure QuestionEvent where
  eventType : QuestionEventType
  blockId : String
  sessionId : String
  questionId : String
  questionType : String
  questionText : Option String
  timestamp : Nat
  timeToAnswer : Option Int
  answer : Option String
  correctAnswer : Option String
  isCorrect : Option Bool
  score : Option Int
  maxScore : Option Int
  attemptNumber : Option Nat
  hintsUsed : Option Nat
deriving Repr, DecidableEq

/-- A SlideViewEvent record.  The tracker core never constructs one; the
slides list of the session state stays empty. -/
structure SlideViewEvent where
  slideId : String
  courseId : Option String
  sessionId : String
  eventType : String
  timestamp : Nat
  timeSpent : Int
deriving Repr, DecidableEq

/-- The SessionState owned by one tracker instance.  averageTimePerQuestion
and accuracyRate live in the summary, not here. -/
structure SessionState where
  sessionId : String
  blockId : String
  startTime : Nat
  interactions : List InteractionEvent
  questions : List QuestionEvent
  slides : List SlideViewEvent
  currentQuestionId : Option String
  currentQuestionStartTime : Option Nat
  totalInteractions : Nat
  totalQuestions : Nat
  correctQuestions : Nat
deriving Repr, DecidableEq

/-- The raw BlockTrackerConfig: every field optional, as at the call site of
the constructor. -/
structure BlockTrackerConfig where
  blockId : Option String := none
  slideId : Option String := none
  courseId : Option String := none
  trackInteractions : Option Bool := none
  trackQuestions : Option Bool := none
  sendDetailedEvents : Option Bool := none
  sendSummaryEvent : Option Bool := none
  sendLegacyEvent : Option Bool := none
  interactionDebounce : Option Nat := none
  progressUpdateInterval : Option Nat := none
  persistSession : Option Bool := none
  sessionStorageKey : Option String := none
deriving Repr, DecidableEq

/-- The fully-defaulted configuration stored on the tracker, the image of
Required BlockTrackerConfig. -/
structure ResolvedConfig where
  blockId : String
  slideId : String
  courseId : String
  trackInteractions : Bool
  trackQuestions : Bool
  sendDetailedEvents : Bool
  sendSummaryEvent : Bool
  sendLegacyEvent : Bool
  interactionDebounce : Nat
  progressUpdateInterval : Nat
  persistSession : Bool
  sessionStorageKey : String
deriving Repr, DecidableEq

/-- Constructor defaulting.  blockId, slideId and courseId use the
logical-or operator (falsy empty string included); the boolean and numeric
toggles use nullish coalescing; the storage key default interpolates the
raw blockId with an anonymous fallback. -/
def resolveConfig (config : BlockTrackerConfig) : ResolvedConfig where
  blockId := jsOrString config.blockId ""
  slideId := jsOrString config.slideId ""
  courseId := jsOrString config.courseId ""
  trackInteractions := config.trackInteractions.getD true
  trackQuestions := config.trackQuestions.getD true
  sendDetailedEvents := config.sendDetailedEvents.getD true
  sendSummaryEvent := config.sendSummaryEvent.getD true
  sendLegacyEvent := config.sendLegacyEvent.getD true
  interactionDebounce := config.interactionDebounce.getD 100
  progressUpdateInterval := config.progressUpdateInterval.getD 5000
  persistSession := config.persistSession.getD false
  sessionStorageKey :=
    config.sessionStorageKey.getD
      ("blockTracker_" ++ jsOrString config.blockId "anonymous")

/-- The summary block of a BLOCK_SESSION event.  The two JS-number ratios
are modelled exactly in the rationals; an absent (undefined) value is none. -/
structure SessionSummary where
  completed : Bool
  score : Option Int
  maxScore : Option Int
  timeSpent : Int
  totalInteractions : Nat
  questionsAttempted : Nat
  questionsCorrect : Nat
  questionsIncorrect : Nat
  questionsSkipped : Nat
  averageTimePerQuestion : Option ℚ
  accuracyRate : Option ℚ
  hintsUsedTotal : Nat
deriving Repr, DecidableEq

/-- The optional detailed breakdown attached to a completed session event. -/
structure SessionDetails where
  interactions : List InteractionEvent
  questions : List QuestionEvent
  slides : List SlideViewEvent
deriving Repr, DecidableEq

/-- A BLOCK_SESSION event. -/
structure BlockSessionEvent where
  eventType : SessionEventType
  blockId : String
  slideId : String
  courseId : String
  sessionId : String
  timestamp : Nat
  summary : SessionSummary
  details : Option SessionDetails
deriving Repr, DecidableEq

/-- The legacy BLOCK_COMPLETION event exactly as the object literal in
sendLegacyCompletion builds it: type, completed, score, maxScore, timeSpent
and data only.  The TypeScript interface LegacyBlockCompletionEvent declares
a required numeric timestamp field, but the literal omits it (and has no
sessionId field at all), so the emitted object carries neither. -/
structure LegacyBlockCompletionEvent where
  completed : Bool
  score : Option Int
  maxScore : Option Int
  timeSpent : Option Int
  data : Option String
deriving Repr, DecidableEq

/-- Any record handed to sendEvent by the tracker. -/
inductive Emitted where
  | interaction (e : InteractionEvent)
  | question (e : QuestionEvent)
  | session (e : BlockSessionEvent)
  | legacy (e : LegacyBlockCompletionEvent)
deriving Repr, DecidableEq

/-- Reading the timestamp property of an emitted object: the three typed
events carry one; the legacy completion literal has no such key, so the
read yields undefined. -/
def emittedTimestamp : Emitted → Option Nat
  | .interaction e => some e.timestamp
  | .question e => some e.timestamp
  | .session e => some e.timestamp
  | .legacy _ => none

/-- Reading the sessionId property of an emitted object; undefined on the
legacy completion literal. -/
def emittedSessionId : Emitted → Option String
  | .interaction e => some e.sessionId
  | .question e => some e.sessionId
  | .session e => some e.sessionId
  | .legacy _ => none

/-- localStorage restricted to the tracker keys, modelled as a well-typed
association list; a JSON parse of a present value always succeeds. -/
def Storage : Type := List (String × SessionState)

/-- localStorage.getItem followed by a successful JSON.parse. -/
def storageGet : Storage → String → Option SessionState
  | [], _ => none
  | (k, v) :: rest, key => if k = key then some v else storageGet rest key

/-- localStorage.setItem with a serialised session state. -/
def storageSet (σ : Storage) (key : String) (v : SessionState) : Storage :=
  (key, v) :: σ

/-- localStorage.removeItem. -/
def storageRemove (σ : Storage) (key : String) : Storage :=
  σ.filter (fun p => p.1 != key)

/-- One BlockTracker instance: resolved config, session state, the
isCompleted guard flag and whether the progress interval timer is live. -/
structure Tracker where
  config : ResolvedConfig
  state : SessionState
  isCompleted : Bool
  progressTimerActive : Bool
deriving Repr, DecidableEq

/-- Creating a brand-new session, the fallthrough of restoreOrCreateSession.
The Math.random suffix of the generated session id is passed in as rand. -/
def freshSession (cfg : ResolvedConfig) (now : Nat) (rand : String) : SessionState where
  sessionId := "session_" ++ toString now ++ "_" ++ rand
  blockId := cfg.blockId
  startTime := now
  interactions := []
  questions := []
  slides := []
  currentQuestionId := none
  currentQuestionStartTime := none
  totalInteractions := 0
  totalQuestions := 0
  correctQuestions := 0

/-- restoreOrCreateSession: with persistence enabled, a stored record under
the configured key is reused exactly when its blockId equals the configured
blockId; every other case (persistence off, no stored record, mismatched
blockId, parse failure) creates a fresh session. -/
def restoreOrCreateSession (cfg : ResolvedConfig) (σ : Storage) (now : Nat)
    (rand : String) : SessionState :=
  if cfg.persistSession then
    match storageGet σ cfg.sessionStorageKey with
    | some st => if st.blockId = cfg.blockId then st else freshSession cfg now rand
    | none => freshSession cfg now rand
  else freshSession cfg now rand

/-- persistSession: write-through of the full current state when enabled. -/
def persistSession (cfg : ResolvedConfig) (st : SessionState) (σ : Storage) : Storage :=
  if cfg.persistSession then storageSet σ cfg.sessionStorageKey st else σ

/-- clearPersistedSession: remove the stored record when persistence is
enabled. -/
def clearPersistedSession (cfg : ResolvedConfig) (σ : Storage) : Storage :=
  if cfg.persistSession then storageRemove σ cfg.sessionStorageKey else σ

/-- The optional data argument of sendSessionEvent. -/
structure SessionEventData where
  score : Option Int := none
  maxScore : Option Int := none
  timeSpent : Option Int := none
  additionalData : Option String := none
deriving Repr, DecidableEq

/-- Filter selecting answered question events, as in sendSessionEvent. -/
def isAnswered (q : QuestionEvent) : Bool :=
  q.eventType == QuestionEventType.answered

/-- The JS-truthy test on q.isCorrect, an optional boolean: truthy exactly
when defined and true. -/
def isCorrectTruthy (q : QuestionEvent) : Bool :=
  q.isCorrect == some true

/-- sendSessionEvent: build the BLOCK_SESSION event for the given lifecycle
tag from the current state.  timeSpent prefers the supplied value; the two
ratio fields guard on a nonempty answered list; the average treats an
undefined timeToAnswer as 0 via the logical-or operator but divides by the
count of all answered events. -/
def sendSessionEvent (cfg : ResolvedConfig) (st : SessionState) (now : Nat)
    (eventType : SessionEventType) (data : Option SessionEventData) :
    BlockSessionEvent :=
  let timeSpent : Int := (data.bind (·.timeSpent)).getD ((now : Int) - (st.startTime : Int))
  let answeredQuestions := st.questions.filter isAnswered
  let correctQuestions := answeredQuestions.filter isCorrectTruthy
  let incorrectQuestions := answeredQuestions.filter (fun q => !(isCorrectTruthy q))
  let skippedQuestions := st.questions.filter (fun q => q.eventType == QuestionEventType.skipped)
  { eventType := eventType
    blockId := cfg.blockId
    slideId := cfg.slideId
    courseId := cfg.courseId
    sessionId := st.sessionId
    timestamp := now
    summary :=
      { completed := eventType == SessionEventType.completed
        score := data.bind (·.score)
        maxScore := data.bind (·.maxScore)
        timeSpent := timeSpent
        totalInteractions := st.totalInteractions
        questionsAttempted := answeredQuestions.length + skippedQuestions.length
        questionsCorrect := correctQuestions.length
        questionsIncorrect := incorrectQuestions.length
        questionsSkipped := skippedQuestions.length
        averageTimePerQuestion :=
          if answeredQuestions.length > 0 then
            some ((answeredQuestions.map (fun q => ((q.timeToAnswer.getD 0 : Int) : ℚ))).sum
              / (answeredQuestions.length : ℚ))
          else none
        accuracyRate :=
          if answeredQuestions.length > 0 then
            some ((correctQuestions.length : ℚ) / (answeredQuestions.length : ℚ))
          else none
        hintsUsedTotal := (st.questions.map (fun q => q.hintsUsed.getD 0)).sum }
    details :=
      if eventType == SessionEventType.completed && cfg.sendSummaryEvent then
        some ⟨st.interactions, st.questions, st.slides⟩
      else none }

/-- trackInteraction: guarded by the trackInteractions toggle and the
isCompleted flag; appends the event, bumps the counter, emits when detailed
events are on and persists. -/
def trackInteraction (t : Tracker) (σ : Storage) (now : Nat) (interactionType : String)
    (elementId : Option String) (data : Option String) (elementType : Option String)
    (duration : Option Int) : Tracker × Storage × List Emitted :=
  if !t.config.trackInteractions || t.isCompleted then (t, σ, [])
  else
    let event : InteractionEvent :=
      { interactionType := interactionType
        blockId := t.config.blockId
        sessionId := t.state.sessionId
        elementId := elementId
        elementType := elementType
        timestamp := now
        duration := duration
        data := data }
    let st := { t.state with
      interactions := t.state.interactions ++ [event]
      totalInteractions := t.state.totalInteractions + 1 }
    ({ t with state := st }, persistSession t.config st σ,
      if t.config.sendDetailedEvents then [Emitted.interaction event] else [])

/-- startQuestion: sets the current-question pointer and start time, appends
a started QuestionEvent, emits and persists. -/
def startQuestion (t : Tracker) (σ : Storage) (now : Nat) (questionId : String)
    (questionType : String) (questionText : Option String) :
    Tracker × Storage × List Emitted :=
  if !t.config.trackQuestions || t.isCompleted then (t, σ, [])
  else
    let event : QuestionEvent :=
      { eventType := .started
        blockId := t.config.blockId
        sessionId := t.state.sessionId
        questionId := questionId
        questionType := questionType
        questionText := questionText
        timestamp := now
        timeToAnswer := none
        answer := none
        correctAnswer := none
        isCorrect := none
        score := none
        maxScore := none
        attemptNumber := none
        hintsUsed := none }
    let st := { t.state with
      currentQuestionId := some questionId
      currentQuestionStartTime := some now
      questions := t.state.questions ++ [event] }
    ({ t with state := st }, persistSession t.config st σ,
      if t.config.sendDetailedEvents then [Emitted.question event] else [])

/-- The options argument of answerQuestion. -/
structure AnswerOptions where
  questionType : Option String := none
  questionText : Option String := none
  attemptNumber : Option Nat := none
  hintsUsed : Option Nat := none
deriving Repr, DecidableEq

/-- answerQuestion: timeToAnswer is computed only when the open question id
strictly equals the answered id and the recorded start time is truthy;
appends an answered QuestionEvent, bumps totalQuestions, bumps
correctQuestions exactly when isCorrect, clears the current-question
pointer unconditionally, emits and persists. -/
def answerQuestion (t : Tracker) (σ : Storage) (now : Nat) (questionId : String)
    (answer : String) (correctAnswer : String) (isCorrect : Bool)
    (score : Int) (maxScore : Int) (options : AnswerOptions) :
    Tracker × Storage × List Emitted :=
  if !t.config.trackQuestions || t.isCompleted then (t, σ, [])
  else
    let timeToAnswer : Option Int :=
      if t.state.currentQuestionId == some questionId
          && jsTruthyNum t.state.currentQuestionStartTime then
        some ((now : Int) - ((t.state.currentQuestionStartTime.getD 0 : Nat) : Int))
      else none
    let event : QuestionEvent :=
      { eventType := .answered
        blockId := t.config.blockId
        sessionId := t.state.sessionId
        questionId := questionId
        questionType := jsOrString options.questionType "multiple-choice"
        questionText := options.questionText
        timestamp := now
        timeToAnswer := timeToAnswer
        answer := some answer
        correctAnswer := some correctAnswer
        isCorrect := some isCorrect
        score := some score
        maxScore := some maxScore
        attemptNumber := options.attemptNumber
        hintsUsed := options.hintsUsed }
    let st := { t.state with
      questions := t.state.questions ++ [event]
      totalQuestions := t.state.totalQuestions + 1
      correctQuestions := t.state.correctQuestions + (if isCorrect then 1 else 0)
      currentQuestionId := none
      currentQuestionStartTime := none }
    ({ t with state := st }, persistSession t.config st σ,
      if t.config.sendDetailedEvents then [Emitted.question event] else [])

/-- skipQuestion: appends a skipped QuestionEvent; counters and the
current-question pointer are untouched. -/
def skipQuestion (t : Tracker) (σ : Storage) (now : Nat) (questionId : String)
    (questionType : Option String) : Tracker × Storage × List Emitted :=
  if !t.config.trackQuestions || t.isCompleted then (t, σ, [])
  else
    let event : QuestionEvent :=
      { eventType := .skipped
        blockId := t.config.blockId
        sessionId := t.state.sessionId
        questionId := questionId
        questionType := jsOrString questionType "multiple-choice"
        questionText := none
        timestamp := now
        timeToAnswer := none
        answer := none
        correctAnswer := none
        isCorrect := none
        score := none
        maxScore := none
        attemptNumber := none
        hintsUsed := none }
    let st := { t.state with questions := t.state.questions ++ [event] }
    ({ t with state := st }, persistSession t.config st σ,
      if t.config.sendDetailedEvents then [Emitted.question event] else [])

/-- complete: guarded by isCompleted; sets the flag, emits the completed
session event, emits the legacy completion when enabled, stops the timer
and clears the persisted record. -/
def complete (t : Tracker) (σ : Storage) (now : Nat) (score : Option Int)
    (maxScore : Option Int) (additionalData : Option String) :
    Tracker × Storage × List Emitted :=
  if t.isCompleted then (t, σ, [])
  else
    let timeSpent : Int := (now : Int) - (t.state.startTime : Int)
    let sev := sendSessionEvent t.config t.state now .completed
      (some { score := score, maxScore := maxScore, timeSpent := some timeSpent,
              additionalData := additionalData })
    let legacyEvents :=
      if t.config.sendLegacyEvent then
        [Emitted.legacy { completed := true, score := score, maxScore := maxScore,
                          timeSpent := some timeSpent, data := additionalData }]
      else []
    ({ t with isCompleted := true, progressTimerActive := false },
      clearPersistedSession t.config σ,
      Emitted.session sev :: legacyEvents)

/-- abandon: guarded by isCompleted; sets the flag, emits the abandoned
session event with only timeSpent supplied, stops the timer and leaves
storage untouched. -/
def abandon (t : Tracker) (σ : Storage) (now : Nat) : Tracker × Storage × List Emitted :=
  if t.isCompleted then (t, σ, [])
  else
    let timeSpent : Int := (now : Int) - (t.state.startTime : Int)
    let sev := sendSessionEvent t.config t.state now .abandoned
      (some { score := none, maxScore := none, timeSpent := some timeSpent,
              additionalData := none })
    ({ t with isCompleted := true, progressTimerActive := false }, σ,
      [Emitted.session sev])

/-- The BlockTracker constructor: resolve the configuration, restore or
create the session, emit the started session event (no persist happens
here), arm the progress timer when the interval is positive. -/
def newBlockTracker (config : BlockTrackerConfig) (σ : Storage) (now : Nat)
    (rand : String) : Tracker × Storage × List Emitted :=
  let cfg := resolveConfig config
  let st := restoreOrCreateSession cfg σ now rand
  let t : Tracker :=
    { config := cfg
      state := st
      isCompleted := false
      progressTimerActive := cfg.progressUpdateInterval > 0 }
  (t, σ, [Emitted.session (sendSessionEvent cfg st now .started none)])

/-- One public mutating API call with its Date.now() sample. -/
inductive ApiCall where
  | trackInteraction (now : Nat) (interactionType : String) (elementId : Option String)
      (data : Option String) (elementType : Option String) (duration : Option Int)
  | startQuestion (now : Nat) (questionId questionType : String) (questionText : Option String)
  | answerQuestion (now : Nat) (questionId answer correctAnswer : String) (isCorrect : Bool)
      (score maxScore : Int) (options : AnswerOptions)
  | skipQuestion (now : Nat) (questionId : String) (questionType : Option String)
  | complete (now : Nat) (score maxScore : Option Int) (additionalData : Option String)
  | abandon (now : Nat)
deriving Repr, DecidableEq

/-- The Date.now() sample of a call. -/
def ApiCall.time : ApiCall → Nat
  | .trackInteraction now _ _ _ _ _ => now
  | .startQuestion now _ _ _ => now
  | .answerQuestion now _ _ _ _ _ _ _ => now
  | .skipQuestion now _ _ => now
  | .complete now _ _ _ => now
  | .abandon now => now

/-- Dispatch one API call against a tracker and the storage. -/
def step (t : Tracker) (σ : Storage) : ApiCall → Tracker × Storage × List Emitted
  | .trackInteraction now ity eid data ety dur =>
      trackInteraction t σ now ity eid data ety dur
  | .startQuestion now qid qty qtext => startQuestion t σ now qid qty qtext
  | .answerQuestion now qid ans correct ok sc mx opts =>
      answerQuestion t σ now qid ans correct ok sc mx opts
  | .skipQuestion now qid qty => skipQuestion t σ now qid qty
  | .complete now sc mx extra => complete t σ now sc mx extra
  | .abandon now => abandon t σ now

/-- Run a sequence of API calls, accumulating the emitted events. -/
def runCalls (t : Tracker) (σ : Storage) : List ApiCall → Tracker × Storage × List Emitted
  | [] => (t, σ, [])
  | c :: rest =>
      let r := step t σ c
      let r2 := runCalls r.1 r.2.1 rest
      (r2.1, r2.2.1, r.2.2 ++ r2.2.2)

/-- The session summaries of the BLOCK_SESSION events in an emission list. -/
def sessionSummaries (l : List Emitted) : List SessionSummary :=
  l.filterMap fun e =>
    match e with
    | .session ev => some ev.summary
    | _ => none

/-- The legacy completion payloads in an emission list. -/
def legacyPayloads (l : List Emitted) : List LegacyBlockCompletionEvent :=
  l.filterMap fun e =>
    match e with
    | .legacy ev => some ev
    | _ => none

/-- Claim-side average, following the words of the specification: the mean
of timeToAnswer over answered question events with a defined value,
undefined when no answered question has one. -/
def specAverageTimePerQuestion (questions : List QuestionEvent) : Option ℚ :=
  let defined := (questions.filter isAnswered).filterMap (·.timeToAnswer)
  if defined.length > 0 then
    some ((defined.map (fun n => (n : ℚ))).sum / (defined.length : ℚ))
  else none

/-- The running-counter invariant relating the two question counters to the
recorded question events. -/
def countersOk (st : SessionState) : Prop :=
  st.totalQuestions = (st.questions.filter isAnswered).length ∧
  st.correctQuestions =
    (st.questions.filter (fun q => isAnswered q && q.isCorrect == some true)).length

instance instDecidableCountersOk (st : SessionState) : Decidable (countersOk st) := by
  unfold countersOk
  infer_instance

/-- The code's average re-expressed over the defined timeToAnswer values:
the sum of the defined values divided by the number of all answered events;
none exactly when no question was answered. -/
def emittedAverage (questions : List QuestionEvent) : Option ℚ :=
  let answered := questions.filter isAnswered
  if answered.length = 0 then none
  else some (((answered.filterMap (·.timeToAnswer)).map (fun n => (n : ℚ))).sum
    / (answered.length : ℚ))

/-- Concrete run shared by example and witness theorems: a default-config
tracker created at time 100 on empty storage. -/
def exBase : Tracker × Storage × List Emitted := newBlockTracker {} [] 100 "seed"

/-- Concrete run: open question q1 at time 100. -/
def exStartQ1 : Tracker × Storage × List Emitted :=
  startQuestion exBase.1 exBase.2.1 100 "q1" "multiple-choice" none

/-- Concrete run: answer q1 correctly at time 110, giving timeToAnswer 10. -/
def exAnswerQ1 : Tracker × Storage × List Emitted :=
  answerQuestion exStartQ1.1 exStartQ1.2.1 110 "q1" "A" "A" true 1 1 {}

/-- Concrete run: answer q2 at time 120 with no matching open question,
giving an undefined timeToAnswer. -/
def exAnswerQ2 : Tracker × Storage × List Emitted :=
  answerQuestion exAnswerQ1.1 exAnswerQ1.2.1 120 "q2" "B" "A" false 0 1 {}

/-- Concrete run: abandon at time 130, emitting a session summary over one
defined and one undefined timeToAnswer. -/
def exAbandonEnd : Tracker × Storage × List Emitted :=
  abandon exAnswerQ2.1 exAnswerQ2.2.1 130

/-- Concrete run: answer q2 while q1 is the open question. -/
def exMismatchAnswer : Tracker × Storage × List Emitted :=
  answerQuestion exStartQ1.1 exStartQ1.2.1 110 "q2" "B" "A" false 0 1 {}

/-- Concrete run: completing the fresh tracker at time 105 with the default
configuration, which sends the legacy completion event. -/
def exFinish : Tracker × Storage × List Emitted :=
  complete exBase.1 exBase.2.1 105 none none none

/-- Concrete configuration with a block id and persistence enabled. -/
def exPersistCfg : BlockTrackerConfig :=
  { blockId := some "b", persistSession := some true }

/-- Concrete run: a persisted tracker created at time 100 on empty
storage. -/
def exPersistBase : Tracker × Storage × List Emitted :=
  newBlockTracker exPersistCfg [] 100 "r1"

/-- Concrete run: one interaction at time 101, which persists the state. -/
def exPersistTrack : Tracker × Storage × List Emitted :=
  trackInteraction exPersistBase.1 exPersistBase.2.1 101 "click" (some "e1") none none none

/-- Concrete run: abandoning the persisted tracker at time 150. -/
def exPersistAbandon : Tracker × Storage × List Emitted :=
  abandon exPersistTrack.1 exPersistTrack.2.1 150

/-- The legacy completion payload emitted by exFinish: completing at time
105 a session started at time 100 gives timeSpent 5. -/
def exLegacyPayload : LegacyBlockCompletionEvent :=
  { completed := true, score := none, maxScore := none, timeSpent := some 5, data := none }

/-- The summary of the session event emitted by exAbandonEnd. -/
def exSummary : SessionSummary :=
  (sendSessionEvent exAnswerQ2.1.config exAnswerQ2.1.state 130 SessionEventType.abandoned
    (some { score := none, maxScore := none, timeSpent := some 30,
            additionalData := none })).summary

end BlockAnalytics

namespace RegisteredContentStore

/-- The constructor argument record of RegisteredContent; the data tree is
an arbitrary type. -/
structure RegisteredContentDto (D : Type) where
  id : String
  jsonFilePath : String
  storeFilePath : String
  componentPath : String
  data : D
deriving Repr, DecidableEq

/-- A RegisteredContent instance with its copied fields. -/
structure RegisteredContent (D : Type) where
  id : String
  jsonFilePath : String
  storeFilePath : String
  componentPath : String
  data : D
deriving Repr, DecidableEq

/-- The process-wide window.registeredContents map, keyed by store id. -/
def Registry (D : Type) : Type := List (String × RegisteredContent D)

/-- Map.get on the registry. -/
def regGet {D : Type} : Registry D → String → Option (RegisteredContent D)
  | [], _ => none
  | (k, v) :: rest, key => if k = key then some v else regGet rest key

/-- Map.has on the registry. -/
def regHas {D : Type} (reg : Registry D) (key : String) : Bool :=
  (regGet reg key).isSome

/-- Map.set on the registry: replace an existing binding, else append. -/
def regSet {D : Type} : Registry D → String → RegisteredContent D → Registry D
  | [], key, v => [(key, v)]
  | (k, w) :: rest, key, v =>
      if k = key then (k, v) :: rest else (k, w) :: regSet rest key v

/-- The two message shapes posted to the parent context. -/
inductive EditorMsg (D : Type) where
  | init (storeId jsonFilePath storeFilePath componentPath : String) (data : D)
  | inlineUpdate (storeId jsonFilePath componentPath storeFilePath : String)
      (path : String) (value : D)
deriving Repr, DecidableEq

/-- The field assignments at the top of the RegisteredContent constructor. -/
def toContent {D : Type} (dto : RegisteredContentDto D) : RegisteredContent D where
  id := dto.id
  jsonFilePath := dto.jsonFilePath
  storeFilePath := dto.storeFilePath
  componentPath := dto.componentPath
  data := dto.data

/-- The RegisteredContent constructor: copy the dto fields onto the new
instance; when the registry already holds the id, return early with no
registration and no announcement; otherwise record the instance and post
one editor:init message with the id, the path metadata and the data tree. -/
def construct {D : Type} (dto : RegisteredContentDto D) (reg : Registry D)
    (msgs : List (EditorMsg D)) :
    RegisteredContent D × Registry D × List (EditorMsg D) :=
  let rc : RegisteredContent D := toContent dto
  if regHas reg rc.id then (rc, reg, msgs)
  else
    (rc, regSet reg rc.id rc,
      msgs ++ [EditorMsg.init rc.id rc.jsonFilePath rc.storeFilePath rc.componentPath rc.data])

/-- emitInlineEditEvent: post one editor:inline-update patch message. -/
def emitInlineEditEvent {D : Type} (rc : RegisteredContent D) (path : String)
    (value : D) (msgs : List (EditorMsg D)) : List (EditorMsg D) :=
  msgs ++ [EditorMsg.inlineUpdate rc.id rc.jsonFilePath rc.componentPath rc.storeFilePath
    path value]

/-- inlineUpdateRegisteredContent: look the store up by id and forward the
patch on its behalf; a silent no-op when the id is unknown. -/
def inlineUpdateRegisteredContent {D : Type} (reg : Registry D) (storeId : String)
    (path : String) (value : D) (msgs : List (EditorMsg D)) : List (EditorMsg D) :=
  match regGet reg storeId with
  | none => msgs
  | some store => emitInlineEditEvent store path value msgs

end RegisteredContentStore

namespace EventChannel

/-- The observable effects of one sendEvent call: a same-window post, a
parent-frame post, the invocation of one registered callback with the
event, and a logged warning from a catch block. -/
inductive Eff where
  | postSelf (event : Nat)
  | postParent (event : Nat)
  | call (sink : Nat) (event : Nat)
  | warn
deriving Repr, DecidableEq

/-- The outcome of a JS computation: the effects it performed, and the
exception it propagated to its caller, if any. -/
structure Res where
  trace : List Eff
  exn : Option Unit
deriving Repr, DecidableEq

/-- Sequencing: the second statement runs only when the first returned
normally. -/
def Res.seq (a b : Res) : Res :=
  if a.exn.isSome then a else { trace := a.trace ++ b.trace, exn := b.exn }

/-- A try block whose catch logs the handler effects and returns normally. -/
def jsTry (body : Res) (handler : List Eff) : Res :=
  if body.exn.isSome then { trace := body.trace ++ handler, exn := none } else body

/-- Whether the two postMessage targets throw for this call (for example a
structured-clone failure). -/
structure ChannelEnv where
  selfThrows : Bool
  parentThrows : Bool
deriving Repr, DecidableEq

/-- window.postMessage on the own window. -/
def postSelfCall (w : ChannelEnv) (event : Nat) : Res :=
  if w.selfThrows then { trace := [], exn := some () }
  else { trace := [Eff.postSelf event], exn := none }

/-- window.parent.postMessage. -/
def postParentCall (w : ChannelEnv) (event : Nat) : Res :=
  if w.parentThrows then { trace := [], exn := some () }
  else { trace := [Eff.postParent event], exn := none }

/-- A registered event-sender callback: an identity, and whether it throws
after receiving the event. -/
structure Sink where
  sid : Nat
  throws : Bool
deriving Repr, DecidableEq

/-- Invoking one callback: the sink receives the event, then possibly
throws. -/
def sinkCall (s : Sink) (event : Nat) : Res :=
  { trace := [Eff.call s.sid event], exn := if s.throws then some () else none }

/-- The forEach loop over the registered callbacks, each invocation inside
its own try/catch whose catch logs a warning. -/
def runSinks (sinks : List Sink) (event : Nat) : Res :=
  match sinks with
  | [] => { trace := [], exn := none }
  | s :: rest => (jsTry (sinkCall s event) [Eff.warn]).seq (runSinks rest event)

/-- sendEvent: one try/catch around the two postMessage calls, then the
guarded forEach over the callbacks. -/
def sendEvent (w : ChannelEnv) (sinks : List Sink) (event : Nat) : Res :=
  (jsTry ((postSelfCall w event).seq (postParentCall w event)) [Eff.warn]).seq
    (runSinks sinks event)

end EventChannel

namespace BlockAnalytics

lemma storageGet_storageSet_self (σ : Storage) (key : String) (v : SessionState) :
    storageGet (storageSet σ key v) key = some v := by
  simp [storageSet, storageGet]

lemma storageGet_storageRemove_self (σ : Storage) (key : String) :
    storageGet (storageRemove σ key) key = none := by
  induction σ with
  | nil => rfl
  | cons p rest ih =>
      unfold storageRemove at ih ⊢
      by_cases h : p.1 = key
      · simpa [List.filter_cons, h] using ih
      · simpa [List.filter_cons, h, storageGet] using ih

lemma step_terminal (t : Tracker) (σ : Storage) (c : ApiCall)
    (h : t.isCompleted = true) : step t σ c = (t, σ, []) := by
  cases c <;>
    simp [step, trackInteraction, startQuestion, answerQuestion, skipQuestion,
      complete, abandon, h]

lemma runCalls_terminal (t : Tracker) (σ : Storage) (calls : List ApiCall)
    (h : t.isCompleted = true) : runCalls t σ calls = (t, σ, []) := by
  induction calls with
  | nil => rfl
  | cons c rest ih => simp [runCalls, step_terminal t σ c h, ih]

/-- C2: Completed and Abandoned are absorbing terminal states: complete and
abandon always leave the isCompleted flag set, and once that flag is set
every further mutating call returns the tracker and the storage unchanged
and emits no event; in particular a second complete emits no duplicate
completed or legacy event, abandon after complete is a no-op, and complete
after abandon is a no-op. -/
theorem terminal_states_absorbing :
    (∀ (t : Tracker) (σ : Storage) (now : Nat) (score maxScore : Option Int)
        (extra : Option String),
      ((complete t σ now score maxScore extra).1).isCompleted = true) ∧
    (∀ (t : Tracker) (σ : Storage) (now : Nat),
      ((abandon t σ now).1).isCompleted = true) ∧
    (∀ (t : Tracker) (σ : Storage) (calls : List ApiCall),
      t.isCompleted = true → runCalls t σ calls = (t, σ, [])) := by
  refine ⟨?_, ?_, ?_⟩
  · intro t σ now score maxScore extra
    unfold complete
    by_cases h : t.isCompleted <;> simp [h]
  · intro t σ now
    unfold abandon
    by_cases h : t.isCompleted <;> simp [h]
  · intro t σ calls h
    exact runCalls_terminal t σ calls h

/-- Witness for terminal_states_absorbing: after a concrete complete call,
a further abandon and trackInteraction change nothing and emit nothing. -/
theorem terminal_states_absorbing_witness :
    exFinish.1.isCompleted = true ∧
    runCalls exFinish.1 exFinish.2.1
        [ApiCall.abandon 200, ApiCall.trackInteraction 201 "click" none none none none,
         ApiCall.complete 202 none none none] =
      (exFinish.1, exFinish.2.1, []) :=
  ⟨by decide,
    terminal_states_absorbing.2.2 exFinish.1 exFinish.2.1
      [ApiCall.abandon 200, ApiCall.trackInteraction 201 "click" none none none none,
       ApiCall.complete 202 none none none] (by decide)⟩

end BlockAnalytics

namespace EventChannel

lemma jsTry_sinkCall_exn (s : Sink) (event : Nat) :
    (jsTry (sinkCall s event) [Eff.warn]).exn = none := by
  by_cases h : s.throws <;> simp [jsTry, sinkCall, h]

lemma jsTry_sinkCall_trace (s : Sink) (event : Nat) :
    Eff.call s.sid event ∈ (jsTry (sinkCall s event) [Eff.warn]).trace := by
  by_cases h : s.throws <;> simp [jsTry, sinkCall, h]

lemma runSinks_exn (sinks : List Sink) (event : Nat) :
    (runSinks sinks event).exn = none := by
  induction sinks with
  | nil => rfl
  | cons s rest ih =>
      unfold runSinks
      simp [Res.seq, jsTry_sinkCall_exn, ih]

lemma runSinks_calls (sinks : List Sink) (event : Nat) :
    ∀ s ∈ sinks, Eff.call s.sid event ∈ (runSinks sinks event).trace := by
  induction sinks with
  | nil => intro s h; cases h
  | cons a rest ih =>
      intro s h
      unfold runSinks
      simp only [Res.seq, jsTry_sinkCall_exn, Option.isSome_none, Bool.false_eq_true,
        if_false, List.mem_append]
      rcases List.mem_cons.mp h with h | h
      · subst h
        exact Or.inl (jsTry_sinkCall_trace s event)
      · exact Or.inr (ih s h)

lemma postPhase_exn (w : ChannelEnv) (event : Nat) :
    (jsTry ((postSelfCall w event).seq (postParentCall w event)) [Eff.warn]).exn = none := by
  by_cases h1 : w.selfThrows <;> by_cases h2 : w.parentThrows <;>
    simp [jsTry, Res.seq, postSelfCall, postParentCall, h1, h2]

lemma Res.seq_of_exn_none (a b : Res) (h : a.exn = none) :
    a.seq b = { trace := a.trace ++ b.trace, exn := b.exn } := by
  simp [Res.seq, h]

/-- C9: a throwing callback is contained per-callback: sendEvent never
propagates an exception, every registered callback is invoked with the
event regardless of which others throw, and when the channel itself does
not throw both postMessage deliveries occur. -/
theorem sendEvent_isolates_sink_failures (w : ChannelEnv) (sinks : List Sink) (event : Nat) :
    (sendEvent w sinks event).exn = none ∧
    (∀ s ∈ sinks, Eff.call s.sid event ∈ (sendEvent w sinks event).trace) ∧
    (w.selfThrows = false → w.parentThrows = false →
      Eff.postSelf event ∈ (sendEvent w sinks event).trace ∧
      Eff.postParent event ∈ (sendEvent w sinks event).trace) := by
  have hseq : sendEvent w sinks event =
      { trace := (jsTry ((postSelfCall w event).seq (postParentCall w event)) [Eff.warn]).trace
          ++ (runSinks sinks event).trace,
        exn := (runSinks sinks event).exn } := by
    unfold sendEvent
    exact Res.seq_of_exn_none _ _ (postPhase_exn w event)
  refine ⟨?_, ?_, ?_⟩
  · rw [hseq]
    exact runSinks_exn sinks event
  · intro s h
    rw [hseq]
    exact List.mem_append.mpr (Or.inr (runSinks_calls sinks event s h))
  · intro h1 h2
    rw [hseq]
    have hp : (jsTry ((postSelfCall w event).seq (postParentCall w event)) [Eff.warn]).trace
        = [Eff.postSelf event, Eff.postParent event] := by
      simp [jsTry, Res.seq, postSelfCall, postParentCall, h1, h2]
    rw [hp]
    constructor <;> simp

/-- Witness for sendEvent_isolates_sink_failures: with a first sink that
throws, the second sink is still invoked, both posts happen and no
exception escapes. -/
theorem sendEvent_isolates_sink_failures_witness :
    (sendEvent ⟨false, false⟩ [⟨1, true⟩, ⟨2, false⟩] 7).exn = none ∧
    Eff.call 2 7 ∈ (sendEvent ⟨false, false⟩ [⟨1, true⟩, ⟨2, false⟩] 7).trace ∧
    Eff.postParent 7 ∈ (sendEvent ⟨false, false⟩ [⟨1, true⟩, ⟨2, false⟩] 7).trace :=
  ⟨(sendEvent_isolates_sink_failures ⟨false, false⟩ [⟨1, true⟩, ⟨2, false⟩] 7).1,
   (sendEvent_isolates_sink_failures ⟨false, false⟩ [⟨1, true⟩, ⟨2, false⟩] 7).2.1
     ⟨2, false⟩ (by decide),
   ((sendEvent_isolates_sink_failures ⟨false, false⟩ [⟨1, true⟩, ⟨2, false⟩] 7).2.2
     rfl rfl).2⟩

end EventChannel

namespace BlockAnalytics

lemma restoreOrCreateSession_of_miss (cfg : ResolvedConfig) (σ : Storage) (now : Nat)
    (rand : String) (h : storageGet σ cfg.sessionStorageKey = none) :
    restoreOrCreateSession cfg σ now rand = freshSession cfg now rand := by
  unfold restoreOrCreateSession
  by_cases hp : cfg.persistSession <;> simp [hp, h]

lemma countersOk_step (t : Tracker) (σ : Storage) (c : ApiCall)
    (h : countersOk t.state) : countersOk (step t σ c).1.state := by
  obtain ⟨h1, h2⟩ := h
  cases c with
  | trackInteraction now ity eid data ety dur =>
      simp only [step]
      unfold trackInteraction
      split
      · exact ⟨h1, h2⟩
      · exact ⟨h1, h2⟩
  | startQuestion now qid qty qtext =>
      simp only [step]
      unfold startQuestion
      split
      · exact ⟨h1, h2⟩
      · refine ⟨?_, ?_⟩ <;> simp [List.filter_append, isAnswered, h1, h2]
  | answerQuestion now qid ans correct ok sc mx opts =>
      simp only [step]
      unfold answerQuestion
      split
      · exact ⟨h1, h2⟩
      · refine ⟨?_, ?_⟩
        · simp [List.filter_append, isAnswered, h1]
        · cases ok <;> simp [List.filter_append, isAnswered, h2]
  | skipQuestion now qid qty =>
      simp only [step]
      unfold skipQuestion
      split
      · exact ⟨h1, h2⟩
      · refine ⟨?_, ?_⟩ <;> simp [List.filter_append, isAnswered, h1, h2]
  | complete now sc mx extra =>
      simp only [step]
      unfold complete
      split
      · exact ⟨h1, h2⟩
      · exact ⟨h1, h2⟩
  | abandon now =>
      simp only [step]
      unfold abandon
      split
      · exact ⟨h1, h2⟩
      · exact ⟨h1, h2⟩

lemma countersOk_runCalls (t : Tracker) (σ : Storage) (calls : List ApiCall)
    (h : countersOk t.state) : countersOk (runCalls t σ calls).1.state := by
  induction calls generalizing t σ with
  | nil => exact h
  | cons c rest ih =>
      unfold runCalls
      exact ih _ _ (countersOk_step t σ c h)

/-- C1: starting from a fresh session, after every sequence of public API
calls the state satisfies totalQuestions = number of question events with
eventType answered and correctQuestions = number of answered question
events with isCorrect true. -/
theorem question_counters_match_events (config : BlockTrackerConfig) (σ : Storage)
    (now : Nat) (rand : String)
    (hmiss : storageGet σ (resolveConfig config).sessionStorageKey = none)
    (calls : List ApiCall) :
    countersOk ((runCalls (newBlockTracker config σ now rand).1
      (newBlockTracker config σ now rand).2.1 calls).1.state) := by
  apply countersOk_runCalls
  have hst : (newBlockTracker config σ now rand).1.state
      = freshSession (resolveConfig config) now rand := by
    show restoreOrCreateSession (resolveConfig config) σ now rand
      = freshSession (resolveConfig config) now rand
    exact restoreOrCreateSession_of_miss _ _ _ _ hmiss
  rw [hst]
  exact ⟨rfl, rfl⟩

/-- Witness for question_counters_match_events on a concrete three-call
run. -/
theorem question_counters_match_events_witness :
    storageGet ([] : Storage) (resolveConfig {}).sessionStorageKey = none ∧
    countersOk ((runCalls (newBlockTracker {} [] 100 "seed").1
      (newBlockTracker {} [] 100 "seed").2.1
      [ApiCall.startQuestion 100 "q1" "multiple-choice" none,
       ApiCall.answerQuestion 110 "q1" "A" "A" true 1 1 {},
       ApiCall.skipQuestion 115 "q2" none]).1.state) :=
  ⟨rfl, question_counters_match_events {} [] 100 "seed" rfl
    [ApiCall.startQuestion 100 "q1" "multiple-choice" none,
     ApiCall.answerQuestion 110 "q1" "A" "A" true 1 1 {},
     ApiCall.skipQuestion 115 "q2" none]⟩

end BlockAnalytics

namespace RegisteredContentStore

lemma regGet_regSet_self {D : Type} (reg : Registry D) (key : String)
    (v : RegisteredContent D) : regGet (regSet reg key v) key = some v := by
  induction reg with
  | nil => simp [regSet, regGet]
  | cons p rest ih =>
      obtain ⟨k, w⟩ := p
      by_cases h : k = key
      · simp [regSet, regGet, h]
      · simp [regSet, regGet, h, ih]

/-- C8: constructing a RegisteredContent whose store id is already in the
process-wide registry is inert: no editor:init announcement, no registry
change; only the first construction for an id records the instance and
emits exactly one editor:init message with its id, path metadata and data
tree, and after a duplicate construction the registry still maps the id to
the first-constructed instance. -/
theorem registeredContent_first_writer_wins :
    (∀ (D : Type) (dto : RegisteredContentDto D) (reg : Registry D)
        (msgs : List (EditorMsg D)),
      regHas reg dto.id = true → construct dto reg msgs = (toContent dto, reg, msgs)) ∧
    (∀ (D : Type) (dto : RegisteredContentDto D) (reg : Registry D)
        (msgs : List (EditorMsg D)),
      regHas reg dto.id = false →
        regGet (construct dto reg msgs).2.1 dto.id = some (toContent dto) ∧
        (construct dto reg msgs).2.2 =
          msgs ++ [EditorMsg.init dto.id dto.jsonFilePath dto.storeFilePath
            dto.componentPath dto.data]) ∧
    (∀ (D : Type) (dto1 dto2 : RegisteredContentDto D) (reg : Registry D)
        (msgs : List (EditorMsg D)),
      dto2.id = dto1.id → regHas reg dto1.id = false →
        regGet (construct dto2 (construct dto1 reg msgs).2.1
            (construct dto1 reg msgs).2.2).2.1 dto1.id = some (toContent dto1) ∧
        (construct dto2 (construct dto1 reg msgs).2.1
            (construct dto1 reg msgs).2.2).2.2 = (construct dto1 reg msgs).2.2) := by
  have hcon : ∀ (D : Type) (dto : RegisteredContentDto D) (reg : Registry D)
      (msgs : List (EditorMsg D)), regHas reg dto.id = false →
      construct dto reg msgs =
        (toContent dto, regSet reg dto.id (toContent dto),
          msgs ++ [EditorMsg.init dto.id dto.jsonFilePath dto.storeFilePath
            dto.componentPath dto.data]) := by
    intro D dto reg msgs h
    simp [construct, toContent, h]
  have hconT : ∀ (D : Type) (dto : RegisteredContentDto D) (reg : Registry D)
      (msgs : List (EditorMsg D)), regHas reg dto.id = true →
      construct dto reg msgs = (toContent dto, reg, msgs) := by
    intro D dto reg msgs h
    simp [construct, toContent, h]
  refine ⟨?_, ?_, ?_⟩
  · intro D dto reg msgs h
    exact hconT D dto reg msgs h
  · intro D dto reg msgs h
    rw [hcon D dto reg msgs h]
    exact ⟨regGet_regSet_self reg dto.id (toContent dto), rfl⟩
  · intro D dto1 dto2 reg msgs hid h
    rw [hcon D dto1 reg msgs h]
    have hreg2 : regHas (regSet reg dto1.id (toContent dto1)) dto2.id = true := by
      rw [hid]
      simp [regHas, regGet_regSet_self]
    rw [hconT D dto2 _ _ hreg2]
    exact ⟨regGet_regSet_self reg dto1.id (toContent dto1), rfl⟩

/-- Witness for registeredContent_first_writer_wins: a fresh registration
announces once, and a duplicate registration with the same id announces
nothing and leaves the first binding in place. -/
theorem registeredContent_first_writer_wins_witness :
    regGet (construct (⟨"s1", "a", "b", "c", "d"⟩ : RegisteredContentDto String)
        [] []).2.1 "s1" = some (toContent ⟨"s1", "a", "b", "c", "d"⟩) ∧
    (construct (⟨"s1", "x", "y", "z", "w"⟩ : RegisteredContentDto String)
        (construct (⟨"s1", "a", "b", "c", "d"⟩ : RegisteredContentDto String) [] []).2.1
        (construct (⟨"s1", "a", "b", "c", "d"⟩ : RegisteredContentDto String) [] []).2.2).2.2
      = (construct (⟨"s1", "a", "b", "c", "d"⟩ : RegisteredContentDto String) [] []).2.2 :=
  ⟨(registeredContent_first_writer_wins.2.1 String ⟨"s1", "a", "b", "c", "d"⟩ [] [] rfl).1,
   (registeredContent_first_writer_wins.2.2 String ⟨"s1", "a", "b", "c", "d"⟩
     ⟨"s1", "x", "y", "z", "w"⟩ [] [] rfl rfl).2⟩

end RegisteredContentStore

namespace BlockAnalytics

lemma sum_timeToAnswer_getD (l : List QuestionEvent) :
    (l.map (fun q => ((q.timeToAnswer.getD 0 : Int) : ℚ))).sum
      = ((l.filterMap (·.timeToAnswer)).map (fun n => (n : ℚ))).sum := by
  induction l with
  | nil => simp
  | cons q rest ih =>
      cases h : q.timeToAnswer with
      | none => simp [h, ih]
      | some v => simp [h, ih]

lemma sendSessionEvent_avg (cfg : ResolvedConfig) (st : SessionState) (now : Nat)
    (tag : SessionEventType) (data : Option SessionEventData) :
    (sendSessionEvent cfg st now tag data).summary.averageTimePerQuestion
      = emittedAverage st.questions := by
  unfold sendSessionEvent emittedAverage
  by_cases h : (st.questions.filter isAnswered).length = 0
  · simp [h]
  · simp [h, Nat.pos_of_ne_zero h, sum_timeToAnswer_getD]

lemma sendSessionEvent_acc (cfg : ResolvedConfig) (st : SessionState) (now : Nat)
    (tag : SessionEventType) (data : Option SessionEventData) :
    (sendSessionEvent cfg st now tag data).summary.accuracyRate
      = (if (st.questions.filter isAnswered).length = 0 then none
         else some (((st.questions.filter
             (fun q => isAnswered q && isCorrectTruthy q)).length : ℚ)
           / ((st.questions.filter isAnswered).length : ℚ))) := by
  unfold sendSessionEvent
  by_cases h : (st.questions.filter isAnswered).length = 0
  · simp [h]
  · simp [h, Nat.pos_of_ne_zero h, List.filter_filter, Bool.and_comm]

lemma mem_sessionSummaries_step (t : Tracker) (σ : Storage) (c : ApiCall)
    (s : SessionSummary) (hs : s ∈ sessionSummaries (step t σ c).2.2) :
    ∃ (tag : SessionEventType) (data : Option SessionEventData),
      s = (sendSessionEvent t.config t.state c.time tag data).summary := by
  cases c with
  | trackInteraction now ity eid data ety dur =>
      exfalso
      simp only [step] at hs
      unfold trackInteraction at hs
      split at hs
      · simp [sessionSummaries] at hs
      · by_cases hd : t.config.sendDetailedEvents <;>
          simp [sessionSummaries, hd] at hs
  | startQuestion now qid qty qtext =>
      exfalso
      simp only [step] at hs
      unfold startQuestion at hs
      split at hs
      · simp [sessionSummaries] at hs
      · by_cases hd : t.config.sendDetailedEvents <;>
          simp [sessionSummaries, hd] at hs
  | answerQuestion now qid ans correct ok sc mx opts =>
      exfalso
      simp only [step] at hs
      unfold answerQuestion at hs
      split at hs
      · simp [sessionSummaries] at hs
      · by_cases hd : t.config.sendDetailedEvents <;>
          simp [sessionSummaries, hd] at hs
  | skipQuestion now qid qty =>
      exfalso
      simp only [step] at hs
      unfold skipQuestion at hs
      split at hs
      · simp [sessionSummaries] at hs
      · by_cases hd : t.config.sendDetailedEvents <;>
          simp [sessionSummaries, hd] at hs
  | complete now sc mx extra =>
      simp only [step] at hs
      unfold complete at hs
      split at hs
      · exfalso
        simp [sessionSummaries] at hs
      · by_cases hl : t.config.sendLegacyEvent <;>
          simp [sessionSummaries, hl] at hs <;>
        exact ⟨_, _, hs⟩
  | abandon now =>
      simp only [step] at hs
      unfold abandon at hs
      split at hs
      · exfalso
        simp [sessionSummaries] at hs
      · simp only [sessionSummaries, List.filterMap_cons, List.filterMap_nil,
          List.mem_singleton] at hs
        exact ⟨_, _, hs⟩

lemma mem_sessionSummaries_ctor (config : BlockTrackerConfig) (σ : Storage)
    (now : Nat) (rand : String) (s : SessionSummary)
    (hs : s ∈ sessionSummaries (newBlockTracker config σ now rand).2.2) :
    s = (sendSessionEvent (resolveConfig config)
      (restoreOrCreateSession (resolveConfig config) σ now rand) now
      SessionEventType.started none).summary := by
  simp only [newBlockTracker, sessionSummaries, List.filterMap_cons, List.filterMap_nil,
    List.mem_singleton] at hs
  exact hs

/-- C3 amended: in every emitted session event's summary,
averageTimePerQuestion is the sum of the defined timeToAnswer values of the
answered question events divided by the number of all answered question
events (an undefined timeToAnswer contributes zero to the numerator but
still counts in the denominator), and it is undefined exactly when the
session contains no answered question event at all. -/
theorem averageTimePerQuestion_amended :
    (∀ (t : Tracker) (σ : Storage) (c : ApiCall) (s : SessionSummary),
      s ∈ sessionSummaries (step t σ c).2.2 →
      s.averageTimePerQuestion = emittedAverage t.state.questions) ∧
    (∀ (config : BlockTrackerConfig) (σ : Storage) (now : Nat) (rand : String)
        (s : SessionSummary),
      s ∈ sessionSummaries (newBlockTracker config σ now rand).2.2 →
      s.averageTimePerQuestion = emittedAverage
        (restoreOrCreateSession (resolveConfig config) σ now rand).questions) := by
  constructor
  · intro t σ c s hs
    obtain ⟨tag, data, rfl⟩ := mem_sessionSummaries_step t σ c s hs
    exact sendSessionEvent_avg t.config t.state c.time tag data
  · intro config σ now rand s hs
    rw [mem_sessionSummaries_ctor config σ now rand s hs]
    exact sendSessionEvent_avg _ _ now SessionEventType.started none

/-- Witness for averageTimePerQuestion_amended at the concrete abandoned
run with one defined and one undefined timeToAnswer. -/
theorem averageTimePerQuestion_amended_witness :
    exSummary.averageTimePerQuestion = emittedAverage exAnswerQ2.1.state.questions :=
  averageTimePerQuestion_amended.1 exAnswerQ2.1 exAnswerQ2.2.1 (ApiCall.abandon 130)
    exSummary (List.mem_singleton.mpr rfl)

/-- C3 counterexample: in the concrete run with answered timeToAnswer
values 10 and undefined, the emitted summary average is 5 (dividing by the
count of all answered events) while the mean over the defined values alone
is 10, so the claimed formula does not hold of the emitted value. -/
theorem averageTimePerQuestion_counterexample :
    (sessionSummaries exAbandonEnd.2.2).map (fun s => s.averageTimePerQuestion)
      = [some 5] ∧
    specAverageTimePerQuestion exAnswerQ2.1.state.questions = some 10 ∧
    some (5 : ℚ) ≠ some (10 : ℚ) := by
  refine ⟨?_, ?_, by norm_num⟩
  · norm_num +decide [exAbandonEnd, exAnswerQ2, exAnswerQ1, exStartQ1, exBase, newBlockTracker,
      restoreOrCreateSession, resolveConfig, freshSession, startQuestion, answerQuestion,
      abandon, sendSessionEvent, sessionSummaries, persistSession, storageGet, jsOrString,
      jsTruthyNum, isAnswered, isCorrectTruthy, List.filter_cons, List.filter_nil]
  · norm_num +decide [specAverageTimePerQuestion, exAnswerQ2, exAnswerQ1, exStartQ1, exBase,
      newBlockTracker, restoreOrCreateSession, resolveConfig, freshSession, startQuestion,
      answerQuestion, persistSession, storageGet, jsOrString, jsTruthyNum, isAnswered,
      List.filter_cons, List.filter_nil, List.filterMap_cons, List.filterMap_nil,
      Option.bind]

/-- C6: in every emitted session event's summary, accuracyRate is undefined
(none, which is neither a number nor zero) when the session contains no
answered question event, and otherwise equals the number of
answered-and-correct question events divided by the number of answered
question events. -/
theorem accuracyRate_spec :
    (∀ (t : Tracker) (σ : Storage) (c : ApiCall) (s : SessionSummary),
      s ∈ sessionSummaries (step t σ c).2.2 →
      s.accuracyRate =
        (if (t.state.questions.filter isAnswered).length = 0 then none
         else some (((t.state.questions.filter
             (fun q => isAnswered q && isCorrectTruthy q)).length : ℚ)
           / ((t.state.questions.filter isAnswered).length : ℚ)))) ∧
    (∀ (config : BlockTrackerConfig) (σ : Storage) (now : Nat) (rand : String)
        (s : SessionSummary),
      s ∈ sessionSummaries (newBlockTracker config σ now rand).2.2 →
      s.accuracyRate =
        (if ((restoreOrCreateSession (resolveConfig config) σ now rand).questions.filter
            isAnswered).length = 0 then none
         else some ((((restoreOrCreateSession (resolveConfig config) σ now rand).questions.filter
             (fun q => isAnswered q && isCorrectTruthy q)).length : ℚ)
           / (((restoreOrCreateSession (resolveConfig config) σ now rand).questions.filter
             isAnswered).length : ℚ)))) := by
  constructor
  · intro t σ c s hs
    obtain ⟨tag, data, rfl⟩ := mem_sessionSummaries_step t σ c s hs
    exact sendSessionEvent_acc t.config t.state c.time tag data
  · intro config σ now rand s hs
    rw [mem_sessionSummaries_ctor config σ now rand s hs]
    exact sendSessionEvent_acc _ _ now SessionEventType.started none

/-- Witness for accuracyRate_spec at the concrete abandoned run: one of the
two answered questions is correct, so the rate is one half. -/
theorem accuracyRate_spec_witness :
    exSummary.accuracyRate =
      (if (exAnswerQ2.1.state.questions.filter isAnswered).length = 0 then none
       else some (((exAnswerQ2.1.state.questions.filter
           (fun q => isAnswered q && isCorrectTruthy q)).length : ℚ)
         / ((exAnswerQ2.1.state.questions.filter isAnswered).length : ℚ))) ∧
    exSummary.accuracyRate = some ((1 : ℚ) / 2) :=
  ⟨accuracyRate_spec.1 exAnswerQ2.1 exAnswerQ2.2.1 (ApiCall.abandon 130)
    exSummary (List.mem_singleton.mpr rfl), by
      unfold exSummary
      rw [sendSessionEvent_acc]
      norm_num +decide [exAnswerQ2, exAnswerQ1, exStartQ1, exBase, newBlockTracker,
        restoreOrCreateSession, resolveConfig, freshSession, startQuestion, answerQuestion,
        persistSession, storageGet, jsOrString, jsTruthyNum, isAnswered, isCorrectTruthy,
        List.filter_cons, List.filter_nil]⟩

end BlockAnalytics

namespace BlockAnalytics

/-- C4 amended: startQuestion sets currentQuestionId and the start time,
and answerQuestion clears both unconditionally, whatever the answered id
is; the answered event is recorded either way, so a mismatched id does not
leave the pointer stale. -/
theorem answerQuestion_clears_pointer :
    (∀ (t : Tracker) (σ : Storage) (now : Nat) (qid qty : String)
        (qtext : Option String),
      t.config.trackQuestions = true → t.isCompleted = false →
      (startQuestion t σ now qid qty qtext).1.state.currentQuestionId = some qid ∧
      (startQuestion t σ now qid qty qtext).1.state.currentQuestionStartTime = some now) ∧
    (∀ (t : Tracker) (σ : Storage) (now : Nat) (qid ans correct : String) (ok : Bool)
        (sc mx : Int) (opts : AnswerOptions),
      t.config.trackQuestions = true → t.isCompleted = false →
      (answerQuestion t σ now qid ans correct ok sc mx opts).1.state.currentQuestionId
          = none ∧
      (answerQuestion t σ now qid ans correct ok sc mx opts).1.state.currentQuestionStartTime
          = none ∧
      ∃ ev : QuestionEvent,
        (answerQuestion t σ now qid ans correct ok sc mx opts).1.state.questions
            = t.state.questions ++ [ev] ∧
        ev.eventType = QuestionEventType.answered ∧ ev.questionId = qid ∧
        ev.isCorrect = some ok) := by
  constructor
  · intro t σ now qid qty qtext htq hic
    have hguard : (!t.config.trackQuestions || t.isCompleted) = false := by
      rw [htq, hic]
      rfl
    unfold startQuestion
    rw [hguard]
    exact ⟨rfl, rfl⟩
  · intro t σ now qid ans correct ok sc mx opts htq hic
    have hguard : (!t.config.trackQuestions || t.isCompleted) = false := by
      rw [htq, hic]
      rfl
    unfold answerQuestion
    rw [hguard]
    exact ⟨rfl, rfl, _, rfl, rfl, rfl, rfl⟩

/-- Witness for answerQuestion_clears_pointer: answering q2 while q1 is
open clears both pointer fields in the concrete run. -/
theorem answerQuestion_clears_pointer_witness :
    (answerQuestion exStartQ1.1 exStartQ1.2.1 110 "q2" "B" "A" false 0 1
        {}).1.state.currentQuestionId = none ∧
    (answerQuestion exStartQ1.1 exStartQ1.2.1 110 "q2" "B" "A" false 0 1
        {}).1.state.currentQuestionStartTime = none :=
  ⟨(answerQuestion_clears_pointer.2 exStartQ1.1 exStartQ1.2.1 110 "q2" "B" "A" false 0 1
      {} (by decide) (by decide)).1,
   (answerQuestion_clears_pointer.2 exStartQ1.1 exStartQ1.2.1 110 "q2" "B" "A" false 0 1
      {} (by decide) (by decide)).2.1⟩

/-- C4 counterexample: with q1 open, answering q2 leaves currentQuestionId
none (cleared), not some q1 (stale), while the answered event is still
recorded. -/
theorem stale_pointer_counterexample :
    exStartQ1.1.state.currentQuestionId = some "q1" ∧
    exMismatchAnswer.1.state.currentQuestionId = none ∧
    exMismatchAnswer.1.state.currentQuestionStartTime = none ∧
    (exMismatchAnswer.1.state.questions.filter isAnswered).length = 1 := by
  refine ⟨rfl, rfl, rfl, by decide⟩

/-- C5 amended: every interaction, question and session event emitted by an
API call or by the constructor carries a timestamp equal to its creation
time and a sessionId equal to the session's id; the legacy completion event
carries neither field. -/
theorem emitted_event_fields :
    (∀ (t : Tracker) (σ : Storage) (c : ApiCall) (e : Emitted),
      e ∈ (step t σ c).2.2 →
      ((∃ lv, e = Emitted.legacy lv) →
        emittedTimestamp e = none ∧ emittedSessionId e = none) ∧
      ((∀ lv, e ≠ Emitted.legacy lv) →
        emittedTimestamp e = some c.time ∧
        emittedSessionId e = some t.state.sessionId)) ∧
    (∀ (config : BlockTrackerConfig) (σ : Storage) (now : Nat) (rand : String)
        (e : Emitted),
      e ∈ (newBlockTracker config σ now rand).2.2 →
      emittedTimestamp e = some now ∧
      emittedSessionId e = some (newBlockTracker config σ now rand).1.state.sessionId) := by
  constructor
  · intro t σ c e he
    cases c with
    | trackInteraction now ity eid data ety dur =>
        simp only [step] at he
        unfold trackInteraction at he
        split at he
        · simp at he
        · by_cases hd : t.config.sendDetailedEvents
          · simp [hd] at he
            subst he
            refine ⟨?_, ?_⟩
            · rintro ⟨lv, hlv⟩
              exact Emitted.noConfusion hlv
            · intro _
              exact ⟨rfl, rfl⟩
          · simp [hd] at he
    | startQuestion now qid qty qtext =>
        simp only [step] at he
        unfold startQuestion at he
        split at he
        · simp at he
        · by_cases hd : t.config.sendDetailedEvents
          · simp [hd] at he
            subst he
            refine ⟨?_, ?_⟩
            · rintro ⟨lv, hlv⟩
              exact Emitted.noConfusion hlv
            · intro _
              exact ⟨rfl, rfl⟩
          · simp [hd] at he
    | answerQuestion now qid ans correct ok sc mx opts =>
        simp only [step] at he
        unfold answerQuestion at he
        split at he
        · simp at he
        · by_cases hd : t.config.sendDetailedEvents
          · simp [hd] at he
            subst he
            refine ⟨?_, ?_⟩
            · rintro ⟨lv, hlv⟩
              exact Emitted.noConfusion hlv
            · intro _
              exact ⟨rfl, rfl⟩
          · simp [hd] at he
    | skipQuestion now qid qty =>
        simp only [step] at he
        unfold skipQuestion at he
        split at he
        · simp at he
        · by_cases hd : t.config.sendDetailedEvents
          · simp [hd] at he
            subst he
            refine ⟨?_, ?_⟩
            · rintro ⟨lv, hlv⟩
              exact Emitted.noConfusion hlv
            · intro _
              exact ⟨rfl, rfl⟩
          · simp [hd] at he
    | complete now sc mx extra =>
        simp only [step] at he
        unfold complete at he
        split at he
        · simp at he
        · by_cases hl : t.config.sendLegacyEvent
          · simp [hl] at he
            rcases he with he | he
            · subst he
              refine ⟨?_, ?_⟩
              · rintro ⟨lv, hlv⟩
                exact Emitted.noConfusion hlv
              · intro _
                exact ⟨rfl, rfl⟩
            · subst he
              refine ⟨?_, ?_⟩
              · intro _
                exact ⟨rfl, rfl⟩
              · intro hno
                exact absurd rfl (hno _)
          · simp [hl] at he
            subst he
            refine ⟨?_, ?_⟩
            · rintro ⟨lv, hlv⟩
              exact Emitted.noConfusion hlv
            · intro _
              exact ⟨rfl, rfl⟩
    | abandon now =>
        simp only [step] at he
        unfold abandon at he
        split at he
        · simp at he
        · simp at he
          subst he
          refine ⟨?_, ?_⟩
          · rintro ⟨lv, hlv⟩
            exact Emitted.noConfusion hlv
          · intro _
            exact ⟨rfl, rfl⟩
  · intro config σ now rand e he
    simp only [newBlockTracker, List.mem_singleton] at he
    subst he
    exact ⟨rfl, rfl⟩

/-- Witness for emitted_event_fields: the started session event of a
concrete construction carries the construction time and the session id. -/
theorem emitted_event_fields_witness :
    emittedTimestamp (Emitted.session (sendSessionEvent (resolveConfig {})
        (restoreOrCreateSession (resolveConfig {}) [] 100 "seed") 100
        SessionEventType.started none)) = some 100 ∧
    emittedSessionId (Emitted.session (sendSessionEvent (resolveConfig {})
        (restoreOrCreateSession (resolveConfig {}) [] 100 "seed") 100
        SessionEventType.started none))
      = some (newBlockTracker {} [] 100 "seed").1.state.sessionId :=
  emitted_event_fields.2 {} [] 100 "seed"
    (Emitted.session (sendSessionEvent (resolveConfig {})
      (restoreOrCreateSession (resolveConfig {}) [] 100 "seed") 100
      SessionEventType.started none))
    (List.mem_singleton.mpr rfl)

/-- C5 counterexample: the legacy completion event emitted by a concrete
complete call carries neither a timestamp nor a sessionId. -/
theorem legacy_event_fields_counterexample :
    Emitted.legacy exLegacyPayload ∈ exFinish.2.2 ∧
    emittedTimestamp (Emitted.legacy exLegacyPayload) = none ∧
    emittedSessionId (Emitted.legacy exLegacyPayload) = none := by
  refine ⟨?_, rfl, rfl⟩
  exact List.mem_cons_of_mem _ (List.mem_singleton.mpr rfl)

end BlockAnalytics

namespace BlockAnalytics

lemma trackInteraction_guard_pass (t : Tracker) (σ : Storage) (now : Nat)
    (ity : String) (eid data ety : Option String) (dur : Option Int)
    (hti : t.config.trackInteractions = true) (hic : t.isCompleted = false) :
    (trackInteraction t σ now ity eid data ety dur).1.state
        = { t.state with
            interactions := t.state.interactions ++
              [{ interactionType := ity, blockId := t.config.blockId,
                 sessionId := t.state.sessionId, elementId := eid, elementType := ety,
                 timestamp := now, duration := dur, data := data }]
            totalInteractions := t.state.totalInteractions + 1 } ∧
    (trackInteraction t σ now ity eid data ety dur).1.config = t.config ∧
    (trackInteraction t σ now ity eid data ety dur).1.isCompleted = false ∧
    (trackInteraction t σ now ity eid data ety dur).2.1
        = persistSession t.config (trackInteraction t σ now ity eid data ety dur).1.state σ := by
  have hguard : (!t.config.trackInteractions || t.isCompleted) = false := by
    rw [hti, hic]
    rfl
  unfold trackInteraction
  rw [hguard]
  exact ⟨rfl, rfl, hic, rfl⟩

lemma newBlockTracker_hit (config : BlockTrackerConfig) (σ : Storage) (now : Nat)
    (rand : String) (st : SessionState)
    (hpersist : (resolveConfig config).persistSession = true)
    (hget : storageGet σ (resolveConfig config).sessionStorageKey = some st)
    (hblock : st.blockId = (resolveConfig config).blockId) :
    (newBlockTracker config σ now rand).1.state = st ∧
    (newBlockTracker config σ now rand).1.isCompleted = false ∧
    (newBlockTracker config σ now rand).2.1 = σ := by
  refine ⟨?_, rfl, rfl⟩
  show restoreOrCreateSession (resolveConfig config) σ now rand = st
  unfold restoreOrCreateSession
  rw [hpersist, hget]
  simp [hblock]

/-- C7: with persistence enabled, construction restores a stored session
exactly when the stored record exists (and, in this well-typed storage
model, parses) with a blockId equal to the configured one, and otherwise
creates a fresh session; and after a tracker persisted two interactions, a
second tracker constructed with the same configuration restores that exact
state: the prior interactions are present and the sessionId is unchanged. -/
theorem restore_matches_persisted_session :
    (∀ (cfg : ResolvedConfig) (σ : Storage) (now : Nat) (rand : String)
        (st : SessionState),
      cfg.persistSession = true →
      storageGet σ cfg.sessionStorageKey = some st → st.blockId = cfg.blockId →
      restoreOrCreateSession cfg σ now rand = st) ∧
    (∀ (cfg : ResolvedConfig) (σ : Storage) (now : Nat) (rand : String),
      cfg.persistSession = false →
      restoreOrCreateSession cfg σ now rand = freshSession cfg now rand) ∧
    (∀ (cfg : ResolvedConfig) (σ : Storage) (now : Nat) (rand : String),
      storageGet σ cfg.sessionStorageKey = none →
      restoreOrCreateSession cfg σ now rand = freshSession cfg now rand) ∧
    (∀ (cfg : ResolvedConfig) (σ : Storage) (now : Nat) (rand : String)
        (st : SessionState),
      storageGet σ cfg.sessionStorageKey = some st → st.blockId ≠ cfg.blockId →
      restoreOrCreateSession cfg σ now rand = freshSession cfg now rand) ∧
    (∀ (config : BlockTrackerConfig) (σ : Storage) (n0 n1 n2 n3 : Nat)
        (rand rand2 i1 i2 : String) (e1 e2 : Option String),
      (resolveConfig config).persistSession = true →
      (resolveConfig config).trackInteractions = true →
      storageGet σ (resolveConfig config).sessionStorageKey = none →
      (newBlockTracker config
          (trackInteraction
            (trackInteraction (newBlockTracker config σ n0 rand).1
              (newBlockTracker config σ n0 rand).2.1 n1 i1 e1 none none none).1
            (trackInteraction (newBlockTracker config σ n0 rand).1
              (newBlockTracker config σ n0 rand).2.1 n1 i1 e1 none none none).2.1
            n2 i2 e2 none none none).2.1
          n3 rand2).1.state
        = (trackInteraction
            (trackInteraction (newBlockTracker config σ n0 rand).1
              (newBlockTracker config σ n0 rand).2.1 n1 i1 e1 none none none).1
            (trackInteraction (newBlockTracker config σ n0 rand).1
              (newBlockTracker config σ n0 rand).2.1 n1 i1 e1 none none none).2.1
            n2 i2 e2 none none none).1.state ∧
      (newBlockTracker config
          (trackInteraction
            (trackInteraction (newBlockTracker config σ n0 rand).1
              (newBlockTracker config σ n0 rand).2.1 n1 i1 e1 none none none).1
            (trackInteraction (newBlockTracker config σ n0 rand).1
              (newBlockTracker config σ n0 rand).2.1 n1 i1 e1 none none none).2.1
            n2 i2 e2 none none none).2.1
          n3 rand2).1.state.sessionId
        = (newBlockTracker config σ n0 rand).1.state.sessionId ∧
      (newBlockTracker config
          (trackInteraction
            (trackInteraction (newBlockTracker config σ n0 rand).1
              (newBlockTracker config σ n0 rand).2.1 n1 i1 e1 none none none).1
            (trackInteraction (newBlockTracker config σ n0 rand).1
              (newBlockTracker config σ n0 rand).2.1 n1 i1 e1 none none none).2.1
            n2 i2 e2 none none none).2.1
          n3 rand2).1.state.interactions.length = 2) := by
  refine ⟨?_, ?_, ?_, ?_, ?_⟩
  · intro cfg σ now rand st hp hget hb
    unfold restoreOrCreateSession
    rw [hp, hget]
    simp [hb]
  · intro cfg σ now rand hp
    unfold restoreOrCreateSession
    rw [hp]
    rfl
  · intro cfg σ now rand hget
    exact restoreOrCreateSession_of_miss cfg σ now rand hget
  · intro cfg σ now rand st hget hb
    unfold restoreOrCreateSession
    by_cases hp : cfg.persistSession
    · rw [hp, hget]
      simp [hb]
    · simp [hp]
  · intro config σ n0 n1 n2 n3 rand rand2 i1 i2 e1 e2 hp hti hmiss
    have h0state : (newBlockTracker config σ n0 rand).1.state
        = freshSession (resolveConfig config) n0 rand := by
      show restoreOrCreateSession (resolveConfig config) σ n0 rand
        = freshSession (resolveConfig config) n0 rand
      exact restoreOrCreateSession_of_miss (resolveConfig config) σ n0 rand hmiss
    have h0cfg : (newBlockTracker config σ n0 rand).1.config = resolveConfig config := rfl
    have h0ic : (newBlockTracker config σ n0 rand).1.isCompleted = false := rfl
    have h0σ : (newBlockTracker config σ n0 rand).2.1 = σ := rfl
    obtain ⟨h1state, h1cfg, h1ic, h1σ⟩ :=
      trackInteraction_guard_pass (newBlockTracker config σ n0 rand).1
        (newBlockTracker config σ n0 rand).2.1 n1 i1 e1 none none none
        (by rw [h0cfg]; exact hti) h0ic
    obtain ⟨h2state, h2cfg, h2ic, h2σ⟩ :=
      trackInteraction_guard_pass
        (trackInteraction (newBlockTracker config σ n0 rand).1
          (newBlockTracker config σ n0 rand).2.1 n1 i1 e1 none none none).1
        (trackInteraction (newBlockTracker config σ n0 rand).1
          (newBlockTracker config σ n0 rand).2.1 n1 i1 e1 none none none).2.1
        n2 i2 e2 none none none
        (by rw [h1cfg, h0cfg]; exact hti) h1ic
    have hσ2 :
        (trackInteraction
          (trackInteraction (newBlockTracker config σ n0 rand).1
            (newBlockTracker config σ n0 rand).2.1 n1 i1 e1 none none none).1
          (trackInteraction (newBlockTracker config σ n0 rand).1
            (newBlockTracker config σ n0 rand).2.1 n1 i1 e1 none none none).2.1
          n2 i2 e2 none none none).2.1
        = storageSet
            (trackInteraction (newBlockTracker config σ n0 rand).1
              (newBlockTracker config σ n0 rand).2.1 n1 i1 e1 none none none).2.1
            (resolveConfig config).sessionStorageKey
            (trackInteraction
              (trackInteraction (newBlockTracker config σ n0 rand).1
                (newBlockTracker config σ n0 rand).2.1 n1 i1 e1 none none none).1
              (trackInteraction (newBlockTracker config σ n0 rand).1
                (newBlockTracker config σ n0 rand).2.1 n1 i1 e1 none none none).2.1
              n2 i2 e2 none none none).1.state := by
      rw [h2σ, h1cfg, h0cfg]
      unfold persistSession
      rw [hp]
      rfl
    have hblock2 :
        (trackInteraction
          (trackInteraction (newBlockTracker config σ n0 rand).1
            (newBlockTracker config σ n0 rand).2.1 n1 i1 e1 none none none).1
          (trackInteraction (newBlockTracker config σ n0 rand).1
            (newBlockTracker config σ n0 rand).2.1 n1 i1 e1 none none none).2.1
          n2 i2 e2 none none none).1.state.blockId = (resolveConfig config).blockId := by
      rw [h2state]
      show (trackInteraction (newBlockTracker config σ n0 rand).1
          (newBlockTracker config σ n0 rand).2.1 n1 i1 e1 none none none).1.state.blockId
        = (resolveConfig config).blockId
      rw [h1state]
      show (newBlockTracker config σ n0 rand).1.state.blockId = (resolveConfig config).blockId
      rw [h0state]
      rfl
    obtain ⟨hrestate, _, _⟩ :=
      newBlockTracker_hit config
        (trackInteraction
          (trackInteraction (newBlockTracker config σ n0 rand).1
            (newBlockTracker config σ n0 rand).2.1 n1 i1 e1 none none none).1
          (trackInteraction (newBlockTracker config σ n0 rand).1
            (newBlockTracker config σ n0 rand).2.1 n1 i1 e1 none none none).2.1
          n2 i2 e2 none none none).2.1
        n3 rand2
        (trackInteraction
          (trackInteraction (newBlockTracker config σ n0 rand).1
            (newBlockTracker config σ n0 rand).2.1 n1 i1 e1 none none none).1
          (trackInteraction (newBlockTracker config σ n0 rand).1
            (newBlockTracker config σ n0 rand).2.1 n1 i1 e1 none none none).2.1
          n2 i2 e2 none none none).1.state
        hp (by rw [hσ2]; exact storageGet_storageSet_self _ _ _) hblock2
    refine ⟨hrestate, ?_, ?_⟩
    · rw [hrestate, h2state]
      show (trackInteraction (newBlockTracker config σ n0 rand).1
          (newBlockTracker config σ n0 rand).2.1 n1 i1 e1 none none none).1.state.sessionId
        = (newBlockTracker config σ n0 rand).1.state.sessionId
      rw [h1state]
    · rw [hrestate, h2state]
      show ((trackInteraction (newBlockTracker config σ n0 rand).1
          (newBlockTracker config σ n0 rand).2.1 n1 i1 e1 none none
          none).1.state.interactions ++ [_]).length = 2
      rw [List.length_append, h1state]
      show ((newBlockTracker config σ n0 rand).1.state.interactions ++ [_]).length + 1 = 2
      rw [List.length_append, h0state]
      rfl

/-- Witness for restore_matches_persisted_session at a concrete persisted
configuration and two concrete interactions. -/
theorem restore_matches_persisted_session_witness :
    (newBlockTracker { blockId := some "b", persistSession := some true }
        (trackInteraction
          (trackInteraction (newBlockTracker { blockId := some "b", persistSession := some true } [] 100 "r1").1
            (newBlockTracker { blockId := some "b", persistSession := some true } [] 100 "r1").2.1
            101 "click" (some "e1") none none none).1
          (trackInteraction (newBlockTracker { blockId := some "b", persistSession := some true } [] 100 "r1").1
            (newBlockTracker { blockId := some "b", persistSession := some true } [] 100 "r1").2.1
            101 "click" (some "e1") none none none).2.1
          102 "click" (some "e2") none none none).2.1
        200 "r2").1.state.sessionId
      = (newBlockTracker { blockId := some "b", persistSession := some true } [] 100 "r1").1.state.sessionId ∧
    (newBlockTracker { blockId := some "b", persistSession := some true }
        (trackInteraction
          (trackInteraction (newBlockTracker { blockId := some "b", persistSession := some true } [] 100 "r1").1
            (newBlockTracker { blockId := some "b", persistSession := some true } [] 100 "r1").2.1
            101 "click" (some "e1") none none none).1
          (trackInteraction (newBlockTracker { blockId := some "b", persistSession := some true } [] 100 "r1").1
            (newBlockTracker { blockId := some "b", persistSession := some true } [] 100 "r1").2.1
            101 "click" (some "e1") none none none).2.1
          102 "click" (some "e2") none none none).2.1
        200 "r2").1.state.interactions.length = 2 :=
  ⟨(restore_matches_persisted_session.2.2.2.2 { blockId := some "b", persistSession := some true }
      [] 100 101 102 200 "r1" "r2" "click" "click" (some "e1") (some "e2")
      rfl rfl rfl).2.1,
   (restore_matches_persisted_session.2.2.2.2 { blockId := some "b", persistSession := some true }
      [] 100 101 102 200 "r1" "r2" "click" "click" (some "e1") (some "e2")
      rfl rfl rfl).2.2⟩

end BlockAnalytics

namespace BlockAnalytics

/-- C10: abandon leaves the persisted session record unchanged, only
complete (with persistence enabled) removes it, and restoration does not
check for completion: a tracker constructed after an abandoned session with
a matching stored record restores the abandoned session's full state and
sessionId, with the new tracker not completed, as if the session were
active. -/
theorem abandoned_session_restorable :
    (∀ (t : Tracker) (σ : Storage) (now : Nat), (abandon t σ now).2.1 = σ) ∧
    (∀ (t : Tracker) (σ : Storage) (now : Nat) (sc mx : Option Int)
        (extra : Option String),
      t.isCompleted = false → t.config.persistSession = true →
      (complete t σ now sc mx extra).2.1
        = storageRemove σ t.config.sessionStorageKey) ∧
    (∀ (t : Tracker) (σ : Storage) (now : Nat) (config : BlockTrackerConfig)
        (now2 : Nat) (rand2 : String) (st : SessionState),
      (resolveConfig config).persistSession = true →
      storageGet σ (resolveConfig config).sessionStorageKey = some st →
      st.blockId = (resolveConfig config).blockId →
      (newBlockTracker config (abandon t σ now).2.1 now2 rand2).1.state = st ∧
      (newBlockTracker config (abandon t σ now).2.1 now2 rand2).1.isCompleted = false) := by
  have habandon : ∀ (t : Tracker) (σ : Storage) (now : Nat), (abandon t σ now).2.1 = σ := by
    intro t σ now
    unfold abandon
    split
    · rfl
    · rfl
  refine ⟨habandon, ?_, ?_⟩
  · intro t σ now sc mx extra hic hp
    unfold complete
    rw [hic]
    show clearPersistedSession t.config σ = storageRemove σ t.config.sessionStorageKey
    unfold clearPersistedSession
    rw [hp]
    rfl
  · intro t σ now config now2 rand2 st hp hget hb
    rw [habandon t σ now]
    obtain ⟨h1, h2, _⟩ := newBlockTracker_hit config σ now2 rand2 st hp hget hb
    exact ⟨h1, h2⟩

/-- Witness for abandoned_session_restorable: after abandoning the concrete
persisted run, a new tracker with the same configuration restores the
persisted state with the completion flag clear. -/
theorem abandoned_session_restorable_witness :
    (newBlockTracker exPersistCfg (abandon exPersistTrack.1 exPersistTrack.2.1 150).2.1
        300 "r3").1.state = exPersistTrack.1.state ∧
    (newBlockTracker exPersistCfg (abandon exPersistTrack.1 exPersistTrack.2.1 150).2.1
        300 "r3").1.isCompleted = false :=
  abandoned_session_restorable.2.2 exPersistTrack.1 exPersistTrack.2.1 150
    exPersistCfg 300 "r3" exPersistTrack.1.state rfl (by decide) rfl

end BlockAnalytics
